import Mathlib

/-!
Shallow embedding of `src/voltage-db_convert.pyw` (class `VoltdBGUI`).

Modelling conventions, chosen once for the whole file:

* Python floats are modelled as real numbers (`ℝ`); `math.sqrt` is
  `Real.sqrt`, `math.log10` is `Real.logb 10`, and `x ** y` with a real
  exponent is `Real.rpow`.  `math.log10` raises `ValueError` exactly when
  its argument is `≤ 0`; the update helpers that can raise are therefore
  modelled as `Option`-valued, `none` meaning the exception propagates to
  the caller.
* An entry box that the program has written holds either `str(int(v))`
  (when `v.is_integer()`) or the fixed-point rendering with exactly
  `self.rounding` digits; both are captured losslessly by `Rendered`.
  Re-reading a box with `float(...get())` is `Rendered.parse`.
* The text typed by the user into the source box (and into the impedance
  and rounding boxes) reaches the handlers only through `float(...)` /
  `int(...)`; we pass the parse result as a parameter (`Option ℝ`,
  `Option ℤ`), `none` meaning the parse raised `ValueError`.
* `messagebox.showerror` calls are recorded in an `errors` list; an
  exception escaping a `try/except/else` handler through the `else`
  branch (possible in `calc_dbu`/`calc_dbv`/`calc_dbm`) sets `crashed`.
* The special float values accepted by `float(...)` (`nan`, `inf`,
  `-inf`) matter only for the validation comparisons `entry_val <= 0.0`;
  they are modelled by `FloatV` together with the truth value that IEEE
  comparison gives, and the acceptance tests of the handlers are
  transcribed over `FloatV` separately from the (finite-valued) pipeline.
-/

namespace VoltdB

open Real

/-- Error dialogs: one constructor per distinct `messagebox.showerror` call site
(`update_rounding`, the six `calc_*` handlers, and the impedance dialog shared by
`update_vrms`/`update_dbm`). -/
inductive Err
  | roundingErr
  | vpErr
  | vppErr
  | vrmsErr
  | dbuErr
  | dbvErr
  | dbmErr
  | impedanceErr
  deriving DecidableEq

/-- Box content after the program wrote to it: `whole n` is `str(int(v))`,
`fixed num digits` is the fixed-point rendering whose text has exactly
`digits` digits after the point and reads back as `num / 10 ^ digits`. -/
inductive Rendered
  | whole (n : ℤ)
  | fixed (num : ℤ) (digits : ℕ)
  deriving DecidableEq

/-- Python `float.is_integer`, on the real model. -/
def IsWholeR (x : ℝ) : Prop := ∃ n : ℤ, x = n

open Classical in
/-- Formatting pattern repeated at every write site of the source
(for example lines 271-276): drop the fractional part when the value is whole,
else format fixed-point with `r` digits (rounding to nearest). -/
noncomputable def pyFormat (r : ℕ) (x : ℝ) : Rendered :=
  if IsWholeR x then Rendered.whole ⌊x⌋ else Rendered.fixed (round (x * 10 ^ r)) r

/-- Result of `float(box.get())` on text the program itself wrote. -/
noncomputable def Rendered.parse : Rendered → ℝ
  | Rendered.whole n => (n : ℝ)
  | Rendered.fixed num digits => (num : ℝ) / 10 ^ digits

/-- GUI state: the six value boxes, the impedance box and rounding spinbox
(as their parse results), the stored `self.rounding`, and the observable
effects (error dialogs shown, uncaught exception). -/
structure St where
  vp : Rendered
  vpp : Rendered
  vrms : Rendered
  dbu : Rendered
  dbv : Rendered
  dbm : Rendered
  impedance : Option ℝ
  spin : Option ℤ
  rounding : ℕ
  errors : List Err
  crashed : Bool

/-- Record one `messagebox.showerror` call. -/
def St.addErr (s : St) (e : Err) : St := { s with errors := s.errors ++ [e] }

/-- Line 270: `vp = (vpp / 2)`. -/
noncomputable def vp_from_vpp (vpp : ℝ) : ℝ := vpp / 2

/-- Line 282: `vp = (vrms * math.sqrt(2))`. -/
noncomputable def vp_from_vrms (vrms : ℝ) : ℝ := vrms * Real.sqrt 2

/-- Line 294: `vpp = (vp * 2)`. -/
noncomputable def vpp_from_vp (vp : ℝ) : ℝ := vp * 2

/-- Line 303: `vpp = (2 * vrms * math.sqrt(2))`. -/
noncomputable def vpp_from_vrms (vrms : ℝ) : ℝ := 2 * vrms * Real.sqrt 2

/-- Line 317: `vrms = vp * (1 / math.sqrt(2))`. -/
noncomputable def vrms_from_vp (vp : ℝ) : ℝ := vp * (1 / Real.sqrt 2)

/-- Line 326: `vrms = (vpp / 2) * (1 / math.sqrt(2))`. -/
noncomputable def vrms_from_vpp (vpp : ℝ) : ℝ := (vpp / 2) * (1 / Real.sqrt 2)

/-- Line 335: `vrms = 0.7745966692 * 10**(dbu / 20)`. -/
noncomputable def vrms_from_dbu (dbu : ℝ) : ℝ := 0.7745966692 * (10 : ℝ) ^ (dbu / 20)

/-- Line 344: `vrms = 10**(dbv / 20)`. -/
noncomputable def vrms_from_dbv (dbv : ℝ) : ℝ := (10 : ℝ) ^ (dbv / 20)

/-- Line 358: `vrms = math.sqrt((0.001 * impedance) * 10**(dbm / 10))`. -/
noncomputable def vrms_from_dbm (z dbm : ℝ) : ℝ :=
  Real.sqrt ((0.001 * z) * (10 : ℝ) ^ (dbm / 10))

/-- Line 371: `dbu = 20 * math.log10((vrms / 0.7745966692))`. -/
noncomputable def dbu_from_vrms (vrms : ℝ) : ℝ := 20 * Real.logb 10 (vrms / 0.7745966692)

/-- Line 382: `dbv = 20 * math.log10(vrms)`. -/
noncomputable def dbv_from_vrms (vrms : ℝ) : ℝ := 20 * Real.logb 10 vrms

/-- Line 398: `dbm = 10 * math.log10((vrms**2) / (0.001 * impedance))`. -/
noncomputable def dbm_from_vrms (vrms z : ℝ) : ℝ :=
  10 * Real.logb 10 (vrms ^ 2 / (0.001 * z))

/-- Lines 141-150, `update_rounding`: read the spinbox as an int, reject values
outside `[1, 10]` with an error dialog (keeping the stored value), otherwise
store it. -/
def update_rounding (s : St) : St :=
  match s.spin with
  | none => s.addErr Err.roundingErr
  | some v => if v < 1 ∨ 10 < v then s.addErr Err.roundingErr
              else { s with rounding := v.toNat }

/-- Lines 267-289, `update_vp(vpp=..., vrms=...)`: write the vp box from
whichever optional argument is present (vpp first). -/
noncomputable def update_vp (s : St) (vpp vrms : Option ℝ) : St :=
  match vpp with
  | some v => { s with vp := pyFormat s.rounding (vp_from_vpp v) }
  | none =>
    match vrms with
    | some v => { s with vp := pyFormat s.rounding (vp_from_vrms v) }
    | none => s

/-- Lines 291-310, `update_vpp(vp=..., vrms=...)`. -/
noncomputable def update_vpp (s : St) (vp vrms : Option ℝ) : St :=
  match vp with
  | some v => { s with vpp := pyFormat s.rounding (vpp_from_vp v) }
  | none =>
    match vrms with
    | some v => { s with vpp := pyFormat s.rounding (vpp_from_vrms v) }
    | none => s

/-- Lines 312-367, `update_vrms(vp=..., vpp=..., dbu=..., dbv=..., dbm=...)`:
write the vrms box from the first optional argument present; the `dbm` branch
first validates the impedance box and shows the impedance dialog on failure
(its own `try/except`), leaving the vrms box untouched. -/
noncomputable def update_vrms (s : St) (vp vpp dbu dbv dbm : Option ℝ) : St :=
  match vp with
  | some v => { s with vrms := pyFormat s.rounding (vrms_from_vp v) }
  | none =>
  match vpp with
  | some v => { s with vrms := pyFormat s.rounding (vrms_from_vpp v) }
  | none =>
  match dbu with
  | some v => { s with vrms := pyFormat s.rounding (vrms_from_dbu v) }
  | none =>
  match dbv with
  | some v => { s with vrms := pyFormat s.rounding (vrms_from_dbv v) }
  | none =>
  match dbm with
  | some v =>
    match s.impedance with
    | none => s.addErr Err.impedanceErr
    | some z =>
      if z ≤ 0 then s.addErr Err.impedanceErr
      else { s with vrms := pyFormat s.rounding (vrms_from_dbm z v) }
  | none => s

/-- Lines 369-378, `update_dbu(vrms)`: `math.log10` raises `ValueError`
(propagated to the caller, hence `none`) exactly when its argument
`vrms / 0.7745966692` is not positive. -/
noncomputable def update_dbu (s : St) (vrms : ℝ) : Option St :=
  if vrms / 0.7745966692 ≤ 0 then none
  else some { s with dbu := pyFormat s.rounding (dbu_from_vrms vrms) }

/-- Lines 380-389, `update_dbv(vrms)`. -/
noncomputable def update_dbv (s : St) (vrms : ℝ) : Option St :=
  if vrms ≤ 0 then none
  else some { s with dbv := pyFormat s.rounding (dbv_from_vrms vrms) }

/-- Lines 391-407, `update_dbm(vrms)`: validates the impedance box inside its
own `try/except`; a `ValueError` from `math.log10` (argument `≤ 0`, i.e.
`vrms = 0` once the impedance is positive) is caught by that same `except`
and also shows the impedance dialog. -/
noncomputable def update_dbm (s : St) (vrms : ℝ) : St :=
  match s.impedance with
  | none => s.addErr Err.impedanceErr
  | some z =>
    if z ≤ 0 then s.addErr Err.impedanceErr
    else if vrms ^ 2 / (0.001 * z) ≤ 0 then s.addErr Err.impedanceErr
    else { s with dbm := pyFormat s.rounding (dbm_from_vrms vrms z) }

/-- Tail shared by `calc_vp`/`calc_vpp` (lines 174-177 and 193-196): run
`update_dbu`, `update_dbv`, `update_dbm` on the re-parsed vrms box, inside the
enclosing `try` whose `except` shows dialog `e`; an exception from
`update_dbu`/`update_dbv` is caught there, keeping the updates made so far. -/
noncomputable def dbTail (s : St) (e : Err) : St :=
  match update_dbu s s.vrms.parse with
  | none => s.addErr e
  | some s3 =>
    match update_dbv s3 s3.vrms.parse with
    | none => s3.addErr e
    | some s4 => update_dbm s4 s4.vrms.parse

/-- Tail of `calc_vrms` (lines 212-215): the same chain, but fed `entry_val`
directly rather than the re-parsed box. -/
noncomputable def dbTailVal (s : St) (w : ℝ) (e : Err) : St :=
  match update_dbu s w with
  | none => s.addErr e
  | some s3 =>
    match update_dbv s3 w with
    | none => s3.addErr e
    | some s4 => update_dbm s4 w

/-- Tail of `calc_dbu` (lines 232-233): `update_dbv` then `update_dbm` on the
re-parsed vrms box; these run in the `else` of a `try/except/else`, so an
exception is uncaught (`crashed`). -/
noncomputable def dbvDbmTail (s : St) : St :=
  match update_dbv s s.vrms.parse with
  | none => { s with crashed := true }
  | some s4 => update_dbm s4 s4.vrms.parse

/-- Tail of `calc_dbv` (lines 248-249): `update_dbu` then `update_dbm`. -/
noncomputable def dbuDbmTail (s : St) : St :=
  match update_dbu s s.vrms.parse with
  | none => { s with crashed := true }
  | some s4 => update_dbm s4 s4.vrms.parse

/-- Tail of `calc_dbm` (lines 264-265): `update_dbu` then `update_dbv`. -/
noncomputable def dbuDbvTail (s : St) : St :=
  match update_dbu s s.vrms.parse with
  | none => { s with crashed := true }
  | some s4 =>
    match update_dbv s4 s4.vrms.parse with
    | none => { s4 with crashed := true }
    | some s5 => s5

/-- Lines 162-179, `calc_vp`: everything (parse, magnitude check, the whole
update chain) sits inside one `try`, whose `except ValueError` shows the V-p
dialog. -/
noncomputable def calc_vp (s0 : St) (entry : Option ℝ) : St :=
  let s := update_rounding s0
  match entry with
  | none => s.addErr Err.vpErr
  | some entry_val =>
    if entry_val ≤ 0 then s.addErr Err.vpErr
    else dbTail (update_vrms (update_vpp s (some entry_val) none)
      (some entry_val) none none none none) Err.vpErr

/-- Lines 181-198, `calc_vpp`. -/
noncomputable def calc_vpp (s0 : St) (entry : Option ℝ) : St :=
  let s := update_rounding s0
  match entry with
  | none => s.addErr Err.vppErr
  | some entry_val =>
    if entry_val ≤ 0 then s.addErr Err.vppErr
    else dbTail (update_vrms (update_vp s (some entry_val) none)
      none (some entry_val) none none none) Err.vppErr

/-- Lines 200-217, `calc_vrms`: the dB boxes are computed from `entry_val`
itself, not from the rewritten vrms box. -/
noncomputable def calc_vrms (s0 : St) (entry : Option ℝ) : St :=
  let s := update_rounding s0
  match entry with
  | none => s.addErr Err.vrmsErr
  | some entry_val =>
    if entry_val ≤ 0 then s.addErr Err.vrmsErr
    else dbTailVal (update_vpp (update_vp s none (some entry_val)) none (some entry_val))
      entry_val Err.vrmsErr

/-- Lines 219-233, `calc_dbu`: `try/except/else` - only the parse is guarded;
an exception inside the `else` block (here: `update_dbv` on a non-positive
re-parsed vrms) is uncaught and aborts the handler. -/
noncomputable def calc_dbu (s0 : St) (entry : Option ℝ) : St :=
  let s := update_rounding s0
  match entry with
  | none => s.addErr Err.dbuErr
  | some entry_val =>
    let s1 := update_vrms s none none (some entry_val) none none
    let s2 := update_vp s1 none (some s1.vrms.parse)
    let s3 := update_vpp s2 none (some s2.vrms.parse)
    dbvDbmTail s3

/-- Lines 235-249, `calc_dbv`. -/
noncomputable def calc_dbv (s0 : St) (entry : Option ℝ) : St :=
  let s := update_rounding s0
  match entry with
  | none => s.addErr Err.dbvErr
  | some entry_val =>
    let s1 := update_vrms s none none none (some entry_val) none
    let s2 := update_vp s1 none (some s1.vrms.parse)
    let s3 := update_vpp s2 none (some s2.vrms.parse)
    dbuDbmTail s3

/-- Lines 251-265, `calc_dbm`: `update_vrms(dbm=...)` may fail on a bad
impedance (dialog shown, vrms box left stale), after which the remaining
updates still run from the stale vrms box. -/
noncomputable def calc_dbm (s0 : St) (entry : Option ℝ) : St :=
  let s := update_rounding s0
  match entry with
  | none => s.addErr Err.dbmErr
  | some entry_val =>
    let s1 := update_vrms s none none none none (some entry_val)
    let s2 := update_vp s1 none (some s1.vrms.parse)
    let s3 := update_vpp s2 none (some s2.vrms.parse)
    dbuDbvTail s3

/-- Parse results of `float(...)` including the non-finite floats it accepts. -/
inductive FloatV
  | fin (x : ℝ)
  | nan
  | inf
  | ninf

/-- Truth value of the Python comparison `entry_val <= 0.0` under IEEE
semantics: false for `nan` and `+inf`, true for `-inf`. -/
def FloatV.le0 : FloatV → Prop
  | FloatV.fin x => x ≤ 0
  | FloatV.nan => False
  | FloatV.inf => False
  | FloatV.ninf => True

/-- Lines 165-168: `calc_vp` shows its error dialog iff `float(...)` raised or
`entry_val <= 0.0` held. -/
def calc_vp_rejects : Option FloatV → Prop
  | none => True
  | some v => v.le0

/-- Lines 184-187, same test in `calc_vpp`. -/
def calc_vpp_rejects : Option FloatV → Prop
  | none => True
  | some v => v.le0

/-- Lines 203-206, same test in `calc_vrms`. -/
def calc_vrms_rejects : Option FloatV → Prop
  | none => True
  | some v => v.le0

/-- Lines 222-225: `calc_dbu` rejects exactly the unparseable inputs. -/
def calc_dbu_rejects : Option FloatV → Prop
  | none => True
  | some _ => False

/-- Lines 238-241, same for `calc_dbv`. -/
def calc_dbv_rejects : Option FloatV → Prop
  | none => True
  | some _ => False

/-- Spec-side predicate: the supplied value is a finite real strictly
greater than 0. -/
def FloatV.isFinitePos : FloatV → Prop
  | FloatV.fin x => 0 < x
  | _ => False

/-- Spec 4.1: `Vrms_from_dBu = REF_U * 10^(dBu/20)` with `REF_U = 0.7745966692`. -/
noncomputable def Vrms_from_dBu_spec (dBu : ℝ) : ℝ := 0.7745966692 * (10 : ℝ) ^ (dBu / 20)

/-- Spec 4.1: `Vrms_from_dBV = 10^(dBV/20)`. -/
noncomputable def Vrms_from_dBV_spec (dBV : ℝ) : ℝ := (10 : ℝ) ^ (dBV / 20)

/-- Spec 4.1: `Vrms_from_dBm = sqrt(0.001 * Z * 10^(dBm/10))`. -/
noncomputable def Vrms_from_dBm_spec (Z dBm : ℝ) : ℝ :=
  Real.sqrt (0.001 * Z * (10 : ℝ) ^ (dBm / 10))

/-- Spec 4.1: `dBu_from_Vrms = 20 * log10(Vrms / REF_U)`. -/
noncomputable def dBu_from_Vrms_spec (Vrms : ℝ) : ℝ := 20 * Real.logb 10 (Vrms / 0.7745966692)

/-- Spec 4.1: `dBV_from_Vrms = 20 * log10(Vrms)`. -/
noncomputable def dBV_from_Vrms_spec (Vrms : ℝ) : ℝ := 20 * Real.logb 10 Vrms

/-- Spec 4.1: `dBm_from_Vrms = 10 * log10(Vrms^2 / (0.001 * Z))`. -/
noncomputable def dBm_from_Vrms_spec (Vrms Z : ℝ) : ℝ :=
  10 * Real.logb 10 (Vrms ^ 2 / (0.001 * Z))

/-- Line 35: `self.rounding = 4`. -/
def initRounding : ℕ := 4

/-- Invariant of claim C9: the stored rounding is an integer in `[1, 10]`. -/
def RoundingOK (s : St) : Prop := 1 ≤ s.rounding ∧ s.rounding ≤ 10

/-- Spinbox content that `update_rounding` rejects. -/
def spinInvalid (s : St) : Prop :=
  s.spin = none ∨ ∃ k, s.spin = some k ∧ (k < 1 ∨ 10 < k)

/-- Impedance box content that the dBm paths reject. -/
def impInvalid (s : St) : Prop :=
  s.impedance = none ∨ ∃ z, s.impedance = some z ∧ z ≤ 0

/-- Boxes of two states coincide (no output field differs). -/
def boxesEq (s t : St) : Prop :=
  t.vp = s.vp ∧ t.vpp = s.vpp ∧ t.vrms = s.vrms ∧
  t.dbu = s.dbu ∧ t.dbv = s.dbv ∧ t.dbm = s.dbm

/-- Concrete state used by the scenario claims: impedance box `600`, spinbox
`4`, stored rounding `4`, all six value boxes holding some prior content. -/
noncomputable def s600 : St :=
  { vp := Rendered.whole 3, vpp := Rendered.whole 3, vrms := Rendered.whole 1,
    dbu := Rendered.whole 3, dbv := Rendered.whole 3, dbm := Rendered.whole 3,
    impedance := some 600, spin := some 4, rounding := 4,
    errors := [], crashed := false }

/-- Variant of `s600` whose impedance box is unparseable. -/
noncomputable def sBadImp : St := { s600 with impedance := none }

/-- Variant of `s600` whose rounding spinbox reads `0`. -/
noncomputable def sBadSpin : St := { s600 with spin := some 0 }

/-- Re-parsed content of the vrms box after the Vp-source path rewrote it. -/
noncomputable def rvrms (s : St) (u : ℝ) : ℝ :=
  (pyFormat (update_rounding s).rounding (vrms_from_vp u)).parse

/-- Re-parsed content of the vrms box after the Vpp-source path rewrote it. -/
noncomputable def rvrmsPP (s : St) (u : ℝ) : ℝ :=
  (pyFormat (update_rounding s).rounding (vrms_from_vpp u)).parse

/-! Numeric groundwork: rational bounds on the logarithms behind the rendered
outputs, certified through integer powers of Mathlib's rational bounds on `e`,
plus evaluation helpers for `pyFormat`. -/

theorem le_log_of_epow_le {c : ℝ} (p q : ℕ) (hc : 0 < c) (hq : 0 < q)
    (h : (2.7182818286 : ℝ) ^ p ≤ c ^ q) : (p : ℝ) / q ≤ Real.log c := by
  have hexp : Real.exp p ≤ c ^ q := by
    refine le_trans ?_ h
    have h1 : Real.exp ((p : ℝ) * 1) = Real.exp 1 ^ p := Real.exp_nat_mul 1 p
    rw [mul_one] at h1
    rw [h1]
    exact pow_le_pow_left₀ (Real.exp_pos 1).le Real.exp_one_lt_d9.le p
  have h2 : (p : ℝ) ≤ Real.log (c ^ q) := (Real.le_log_iff_exp_le (pow_pos hc q)).mpr hexp
  rw [Real.log_pow] at h2
  rw [div_le_iff₀ (show (0 : ℝ) < q from Nat.cast_pos.mpr hq)]
  linarith

theorem log_le_of_pow_le {c : ℝ} (p q : ℕ) (hc : 0 < c) (hq : 0 < q)
    (h : c ^ q ≤ (2.7182818283 : ℝ) ^ p) : Real.log c ≤ (p : ℝ) / q := by
  have hexp : c ^ q ≤ Real.exp p := by
    refine le_trans h ?_
    have h1 : Real.exp ((p : ℝ) * 1) = Real.exp 1 ^ p := Real.exp_nat_mul 1 p
    rw [mul_one] at h1
    rw [h1]
    exact pow_le_pow_left₀ (by norm_num) Real.exp_one_gt_d9.le p
  have h2 : Real.log (c ^ q) ≤ p := (Real.log_le_iff_le_exp (pow_pos hc q)).mpr hexp
  rw [Real.log_pow] at h2
  rw [le_div_iff₀ (show (0 : ℝ) < q from Nat.cast_pos.mpr hq)]
  linarith

set_option maxRecDepth 8000 in
theorem log_ten_lb : (12381 : ℝ) / 5377 ≤ Real.log 10 :=
  le_log_of_epow_le 12381 5377 (by norm_num) (by norm_num) (by norm_num)

set_option maxRecDepth 8000 in
theorem log_ten_ub : Real.log 10 ≤ (3919 : ℝ) / 1702 :=
  log_le_of_pow_le 3919 1702 (by norm_num) (by norm_num) (by norm_num)

set_option maxRecDepth 8000 in
theorem log_53_lb : (2147 : ℝ) / 4203 ≤ Real.log ((5 : ℝ) / 3) :=
  le_log_of_epow_le 2147 4203 (by norm_num) (by norm_num) (by norm_num)

set_option maxRecDepth 8000 in
theorem log_53_ub : Real.log ((5 : ℝ) / 3) ≤ (3539 : ℝ) / 6928 :=
  log_le_of_pow_le 3539 6928 (by norm_num) (by norm_num) (by norm_num)

set_option maxRecDepth 8000 in
theorem log_u_lb : (59 : ℝ) / 231 ≤ Real.log ((2500000000 : ℝ) / 1936491673) :=
  le_log_of_epow_le 59 231 (by norm_num) (by norm_num) (by norm_num)

set_option maxRecDepth 8000 in
theorem log_u_ub : Real.log ((2500000000 : ℝ) / 1936491673) ≤ (696 : ℝ) / 2725 :=
  log_le_of_pow_le 696 2725 (by norm_num) (by norm_num) (by norm_num)

set_option maxRecDepth 8000 in
theorem log_71_lb : (1273 : ℝ) / 3673 ≤ Real.log ((10000 : ℝ) / 7071) :=
  le_log_of_epow_le 1273 3673 (by norm_num) (by norm_num) (by norm_num)

set_option maxRecDepth 8000 in
theorem log_71_ub : Real.log ((10000 : ℝ) / 7071) ≤ (776 : ℝ) / 2239 :=
  log_le_of_pow_le 776 2239 (by norm_num) (by norm_num) (by norm_num)

theorem div_log_ten_bounds {x lx ux : ℝ} (hl : lx ≤ x) (hu : x ≤ ux) (hlx : 0 ≤ lx) :
    lx / ((3919 : ℝ) / 1702) ≤ x / Real.log 10 ∧
      x / Real.log 10 ≤ ux / ((12381 : ℝ) / 5377) := by
  have hl10 := log_ten_lb
  have hu10 := log_ten_ub
  have hpos : (0 : ℝ) < (12381 : ℝ) / 5377 := by norm_num
  constructor
  · exact div_le_div₀ (hlx.trans hl) hl (hpos.trans_le hl10) hu10
  · exact div_le_div₀ ((hlx.trans hl).trans hu) hu hpos hl10

theorem sqrt2_bounds : (1.41421 : ℝ) ≤ Real.sqrt 2 ∧ Real.sqrt 2 ≤ 1.41422 := by
  have h := Real.sq_sqrt (show (0 : ℝ) ≤ 2 by norm_num)
  have hnn := Real.sqrt_nonneg 2
  constructor <;> nlinarith [h, hnn]

theorem round_eq_of (x : ℝ) (n : ℤ) (h1 : (n : ℝ) ≤ x + 1 / 2) (h2 : x + 1 / 2 < n + 1) :
    round x = n := by
  rw [round_eq]
  exact Int.floor_eq_iff.mpr ⟨h1, h2⟩

theorem not_whole_of_between {x : ℝ} (k : ℤ) (h1 : (k : ℝ) < x) (h2 : x < (k : ℝ) + 1) :
    ¬ IsWholeR x := by
  rintro ⟨n, rfl⟩
  have hk1 : k < n := by exact_mod_cast h1
  have hk2 : (n : ℝ) < ((k + 1 : ℤ) : ℝ) := by push_cast; linarith
  have hk2' : n < k + 1 := by exact_mod_cast hk2
  omega

theorem pyFormat_whole (r : ℕ) {x : ℝ} (n : ℤ) (hx : x = n) :
    pyFormat r x = Rendered.whole n := by
  rw [pyFormat, if_pos ⟨n, hx⟩, hx, Int.floor_intCast]

theorem pyFormat_fixed (r : ℕ) {x : ℝ} (n : ℤ) (hw : ¬ IsWholeR x)
    (h1 : (n : ℝ) ≤ x * 10 ^ r + 1 / 2) (h2 : x * 10 ^ r + 1 / 2 < (n : ℝ) + 1) :
    pyFormat r x = Rendered.fixed n r := by
  rw [pyFormat, if_neg hw, round_eq_of _ n h1 (by linarith)]

/-! Evaluations of the concrete rendered outputs used by the scenario claims. -/

theorem vp1_format : pyFormat 4 (vp_from_vrms 1) = Rendered.fixed 14142 4 := by
  obtain ⟨h1, h2⟩ := sqrt2_bounds
  have hx : vp_from_vrms 1 = Real.sqrt 2 := by rw [vp_from_vrms, one_mul]
  have hp : ((10 : ℝ)) ^ (4 : ℕ) = 10000 := by norm_num
  rw [hx]
  refine pyFormat_fixed 4 14142 (not_whole_of_between 1 (by push_cast; linarith) (by push_cast; linarith)) ?_ ?_ <;>
    rw [hp] <;> push_cast <;> linarith

theorem vpp1_format : pyFormat 4 (vpp_from_vrms 1) = Rendered.fixed 28284 4 := by
  obtain ⟨h1, h2⟩ := sqrt2_bounds
  have hx : vpp_from_vrms 1 = 2 * Real.sqrt 2 := by rw [vpp_from_vrms, mul_one]
  have hp : ((10 : ℝ)) ^ (4 : ℕ) = 10000 := by norm_num
  rw [hx]
  refine pyFormat_fixed 4 28284 (not_whole_of_between 2 (by push_cast; linarith) (by push_cast; linarith)) ?_ ?_ <;>
    rw [hp] <;> push_cast <;> linarith

theorem inv_sqrt2_bounds : (0.70710 : ℝ) ≤ 1 / Real.sqrt 2 ∧ 1 / Real.sqrt 2 ≤ 0.70711 := by
  obtain ⟨h1, h2⟩ := sqrt2_bounds
  have hpos : (0 : ℝ) < Real.sqrt 2 := by linarith
  constructor
  · rw [le_div_iff₀ hpos]; nlinarith
  · rw [div_le_iff₀ hpos]; nlinarith

theorem vrms1_format : pyFormat 4 (vrms_from_vp 1) = Rendered.fixed 7071 4 := by
  obtain ⟨h1, h2⟩ := inv_sqrt2_bounds
  have hx : vrms_from_vp 1 = 1 / Real.sqrt 2 := by rw [vrms_from_vp, one_mul]
  have hp : ((10 : ℝ)) ^ (4 : ℕ) = 10000 := by norm_num
  rw [hx]
  refine pyFormat_fixed 4 7071 (not_whole_of_between 0 (by push_cast; linarith) (by push_cast; linarith)) ?_ ?_ <;>
    rw [hp] <;> push_cast <;> linarith

theorem dbu1_bounds : (2.21845 : ℝ) ≤ dbu_from_vrms 1 ∧ dbu_from_vrms 1 ≤ 2.21849 := by
  have harg : dbu_from_vrms 1 = 20 * Real.logb 10 ((2500000000 : ℝ) / 1936491673) := by
    rw [dbu_from_vrms]; norm_num
  obtain ⟨h1, h2⟩ := div_log_ten_bounds log_u_lb log_u_ub (by norm_num)
  rw [harg, Real.logb]
  constructor <;> nlinarith [h1, h2]

theorem dbu1_format : pyFormat 4 (dbu_from_vrms 1) = Rendered.fixed 22185 4 := by
  obtain ⟨h1, h2⟩ := dbu1_bounds
  have hp : ((10 : ℝ)) ^ (4 : ℕ) = 10000 := by norm_num
  refine pyFormat_fixed 4 22185 (not_whole_of_between 2 (by push_cast; linarith) (by push_cast; linarith)) ?_ ?_ <;>
    rw [hp] <;> push_cast <;> linarith

theorem dbm1_bounds : (2.21845 : ℝ) ≤ dbm_from_vrms 1 600 ∧ dbm_from_vrms 1 600 ≤ 2.21849 := by
  have harg : dbm_from_vrms 1 600 = 10 * Real.logb 10 ((5 : ℝ) / 3) := by
    rw [dbm_from_vrms]; norm_num
  obtain ⟨h1, h2⟩ := div_log_ten_bounds log_53_lb log_53_ub (by norm_num)
  rw [harg, Real.logb]
  constructor <;> nlinarith [h1, h2]

theorem dbm1_format : pyFormat 4 (dbm_from_vrms 1 600) = Rendered.fixed 22185 4 := by
  obtain ⟨h1, h2⟩ := dbm1_bounds
  have hp : ((10 : ℝ)) ^ (4 : ℕ) = 10000 := by norm_num
  refine pyFormat_fixed 4 22185 (not_whole_of_between 2 (by push_cast; linarith) (by push_cast; linarith)) ?_ ?_ <;>
    rw [hp] <;> push_cast <;> linarith

theorem dbvA_bounds : (-3.01039 : ℝ) ≤ dbv_from_vrms ((7071 : ℝ) / 10 ^ (4 : ℕ)) ∧
    dbv_from_vrms ((7071 : ℝ) / 10 ^ (4 : ℕ)) ≤ -3.01038 := by
  have harg : dbv_from_vrms ((7071 : ℝ) / 10 ^ (4 : ℕ)) =
      20 * Real.logb 10 (((10000 : ℝ) / 7071)⁻¹) := by
    rw [dbv_from_vrms]; norm_num
  obtain ⟨h1, h2⟩ := div_log_ten_bounds log_71_lb log_71_ub (by norm_num)
  rw [harg, Real.logb_inv, Real.logb]
  constructor <;> nlinarith [h1, h2]

theorem dbvA_format : pyFormat 4 (dbv_from_vrms ((7071 : ℝ) / 10 ^ (4 : ℕ))) =
    Rendered.fixed (-30104) 4 := by
  obtain ⟨h1, h2⟩ := dbvA_bounds
  have hp : ((10 : ℝ)) ^ (4 : ℕ) = 10000 := by norm_num
  refine pyFormat_fixed 4 (-30104) (not_whole_of_between (-4) (by push_cast; linarith) (by push_cast; linarith)) ?_ ?_ <;>
    rw [hp] <;> push_cast <;> linarith

theorem dbvB_val : dbv_from_vrms (vrms_from_vp 1) = -(10 * (Real.log 2 / Real.log 10)) := by
  rw [dbv_from_vrms, vrms_from_vp, one_mul, one_div, Real.logb_inv, Real.logb,
    Real.log_sqrt (show (0 : ℝ) ≤ 2 by norm_num)]
  ring

theorem dbvB_bounds : (-3.01030 : ℝ) ≤ dbv_from_vrms (vrms_from_vp 1) ∧
    dbv_from_vrms (vrms_from_vp 1) ≤ -3.01029 := by
  obtain ⟨h1, h2⟩ := div_log_ten_bounds Real.log_two_gt_d9.le Real.log_two_lt_d9.le (by norm_num)
  rw [dbvB_val]
  constructor <;> nlinarith [h1, h2]

theorem dbvB_format : pyFormat 4 (dbv_from_vrms (vrms_from_vp 1)) =
    Rendered.fixed (-30103) 4 := by
  obtain ⟨h1, h2⟩ := dbvB_bounds
  have hp : ((10 : ℝ)) ^ (4 : ℕ) = 10000 := by norm_num
  refine pyFormat_fixed 4 (-30103) (not_whole_of_between (-4) (by push_cast; linarith) (by push_cast; linarith)) ?_ ?_ <;>
    rw [hp] <;> push_cast <;> linarith

theorem dbv1_format (r : ℕ) : pyFormat r (dbv_from_vrms 1) = Rendered.whole 0 := by
  have hx : dbv_from_vrms 1 = ((0 : ℤ) : ℝ) := by
    rw [dbv_from_vrms, Real.logb_one]; norm_num
  exact pyFormat_whole r 0 hx

/-! Frame and evaluation lemmas for the update helpers and the handlers. -/

theorem update_dbm_frame (s : St) (v : ℝ) :
    (update_dbm s v).vp = s.vp ∧ (update_dbm s v).vpp = s.vpp ∧
    (update_dbm s v).vrms = s.vrms ∧ (update_dbm s v).dbu = s.dbu ∧
    (update_dbm s v).dbv = s.dbv ∧ (update_dbm s v).impedance = s.impedance ∧
    (update_dbm s v).spin = s.spin ∧ (update_dbm s v).rounding = s.rounding ∧
    (update_dbm s v).crashed = s.crashed := by
  rcases himp : s.impedance with _ | z
  · simp [update_dbm, himp, St.addErr]
  · simp only [update_dbm, himp]
    split
    · simp [St.addErr, himp]
    · split
      · simp [St.addErr, himp]
      · simp [himp]

theorem update_dbm_dbm (s : St) (v : ℝ) (hv : 0 < v) :
    (update_dbm s v).dbm =
      match s.impedance with
      | none => s.dbm
      | some z => if z ≤ 0 then s.dbm else pyFormat s.rounding (dbm_from_vrms v z) := by
  rcases himp : s.impedance with _ | z
  · simp [update_dbm, himp, St.addErr]
  · simp only [update_dbm, himp]
    by_cases hz : z ≤ 0
    · simp [hz, St.addErr, himp]
    · have hpos : ¬ (v ^ 2 / (0.001 * z) ≤ 0) := by
        push_neg
        have hz' : (0 : ℝ) < 0.001 * z := by nlinarith [not_le.mp hz]
        exact div_pos (pow_pos hv 2) hz'
      simp [hz, hpos, himp]

theorem update_dbm_badImp {s : St} (v : ℝ) (himp : impInvalid s) :
    update_dbm s v = s.addErr Err.impedanceErr := by
  rcases himp with h | ⟨z, hz, hz0⟩
  · simp [update_dbm, h]
  · simp [update_dbm, hz, if_pos hz0]

theorem update_dbu_eq_some {s t : St} {v : ℝ} (h : update_dbu s v = some t) :
    t = { s with dbu := pyFormat s.rounding (dbu_from_vrms v) } := by
  by_cases hc : v / 0.7745966692 ≤ 0
  · rw [update_dbu, if_pos hc] at h
    exact absurd h (by simp)
  · rw [update_dbu, if_neg hc] at h
    exact (Option.some_injective _ h).symm

theorem update_dbv_eq_some {s t : St} {v : ℝ} (h : update_dbv s v = some t) :
    t = { s with dbv := pyFormat s.rounding (dbv_from_vrms v) } := by
  by_cases hc : v ≤ 0
  · rw [update_dbv, if_pos hc] at h
    exact absurd h (by simp)
  · rw [update_dbv, if_neg hc] at h
    exact (Option.some_injective _ h).symm

theorem update_dbu_pos {s : St} {v : ℝ} (hv : 0 < v) :
    update_dbu s v = some { s with dbu := pyFormat s.rounding (dbu_from_vrms v) } := by
  have hc : ¬ (v / 0.7745966692 ≤ 0) := not_le.mpr (div_pos hv (by norm_num))
  rw [update_dbu, if_neg hc]

theorem update_dbv_pos {s : St} {v : ℝ} (hv : 0 < v) :
    update_dbv s v = some { s with dbv := pyFormat s.rounding (dbv_from_vrms v) } := by
  rw [update_dbv, if_neg (not_le.mpr hv)]

theorem update_rounding_boxes (s : St) :
    (update_rounding s).vp = s.vp ∧ (update_rounding s).vpp = s.vpp ∧
    (update_rounding s).vrms = s.vrms ∧ (update_rounding s).dbu = s.dbu ∧
    (update_rounding s).dbv = s.dbv ∧ (update_rounding s).dbm = s.dbm ∧
    (update_rounding s).impedance = s.impedance ∧ (update_rounding s).crashed = s.crashed := by
  rcases hsp : s.spin with _ | k
  · simp [update_rounding, hsp, St.addErr]
  · simp only [update_rounding, hsp]
    split
    · simp [St.addErr]
    · simp

theorem update_rounding_invalid {s : St} (h : spinInvalid s) :
    update_rounding s = s.addErr Err.roundingErr := by
  rcases h with h | ⟨k, hk, hbad⟩
  · simp [update_rounding, h]
  · simp [update_rounding, hk, if_pos hbad]

theorem update_rounding_valid {s : St} {k : ℤ} (hk : s.spin = some k)
    (h1 : 1 ≤ k) (h2 : k ≤ 10) :
    update_rounding s = { s with rounding := k.toNat } := by
  have hbad : ¬ (k < 1 ∨ 10 < k) := by omega
  simp [update_rounding, hk, if_neg hbad]

theorem dbTail_pos (s : St) (e : Err) (h : 0 < s.vrms.parse) :
    dbTail s e =
      update_dbm { s with
        dbu := pyFormat s.rounding (dbu_from_vrms s.vrms.parse),
        dbv := pyFormat s.rounding (dbv_from_vrms s.vrms.parse) } s.vrms.parse := by
  simp only [dbTail, update_dbu_pos h, update_dbv_pos h]

theorem dbTailVal_pos (s : St) (w : ℝ) (e : Err) (hw : 0 < w) :
    dbTailVal s w e =
      update_dbm { s with
        dbu := pyFormat s.rounding (dbu_from_vrms w),
        dbv := pyFormat s.rounding (dbv_from_vrms w) } w := by
  simp only [dbTailVal, update_dbu_pos hw, update_dbv_pos hw]

theorem dbuDbvTail_pos (s : St) (h : 0 < s.vrms.parse) :
    dbuDbvTail s =
      { s with
        dbu := pyFormat s.rounding (dbu_from_vrms s.vrms.parse),
        dbv := pyFormat s.rounding (dbv_from_vrms s.vrms.parse) } := by
  simp only [dbuDbvTail, update_dbu_pos h, update_dbv_pos h]

theorem calc_vrms_eval (s : St) (v : ℝ) (hv : 0 < v) :
    calc_vrms s (some v) =
      update_dbm { update_rounding s with
        vp := pyFormat (update_rounding s).rounding (vp_from_vrms v),
        vpp := pyFormat (update_rounding s).rounding (vpp_from_vrms v),
        dbu := pyFormat (update_rounding s).rounding (dbu_from_vrms v),
        dbv := pyFormat (update_rounding s).rounding (dbv_from_vrms v) } v := by
  simp only [calc_vrms, if_neg (not_le.mpr hv), update_vp, update_vpp]
  rw [dbTailVal_pos _ _ _ hv]

theorem calc_vp_eval (s : St) (u : ℝ) (hu : 0 < u) (hq : 0 < rvrms s u) :
    calc_vp s (some u) =
      update_dbm { update_rounding s with
        vpp := pyFormat (update_rounding s).rounding (vpp_from_vp u),
        vrms := pyFormat (update_rounding s).rounding (vrms_from_vp u),
        dbu := pyFormat (update_rounding s).rounding (dbu_from_vrms (rvrms s u)),
        dbv := pyFormat (update_rounding s).rounding (dbv_from_vrms (rvrms s u)) }
        (rvrms s u) := by
  simp only [calc_vp, if_neg (not_le.mpr hu), update_vpp, update_vrms]
  have h2 : (0 : ℝ) < ({ update_rounding s with
      vpp := pyFormat (update_rounding s).rounding (vpp_from_vp u),
      vrms := pyFormat (update_rounding s).rounding (vrms_from_vp u) } : St).vrms.parse := hq
  rw [dbTail_pos _ _ h2]
  rfl

theorem calc_vpp_eval (s : St) (u : ℝ) (hu : 0 < u) (hq : 0 < rvrmsPP s u) :
    calc_vpp s (some u) =
      update_dbm { update_rounding s with
        vp := pyFormat (update_rounding s).rounding (vp_from_vpp u),
        vrms := pyFormat (update_rounding s).rounding (vrms_from_vpp u),
        dbu := pyFormat (update_rounding s).rounding (dbu_from_vrms (rvrmsPP s u)),
        dbv := pyFormat (update_rounding s).rounding (dbv_from_vrms (rvrmsPP s u)) }
        (rvrmsPP s u) := by
  simp only [calc_vpp, if_neg (not_le.mpr hu), update_vp, update_vrms]
  have h2 : (0 : ℝ) < ({ update_rounding s with
      vp := pyFormat (update_rounding s).rounding (vp_from_vpp u),
      vrms := pyFormat (update_rounding s).rounding (vrms_from_vpp u) } : St).vrms.parse := hq
  rw [dbTail_pos _ _ h2]
  rfl

theorem calc_dbm_badImp (s : St) (v : ℝ) (himp : impInvalid s) (hst : 0 < s.vrms.parse) :
    calc_dbm s (some v) =
      { update_rounding s with
        errors := (update_rounding s).errors ++ [Err.impedanceErr],
        vp := pyFormat (update_rounding s).rounding (vp_from_vrms s.vrms.parse),
        vpp := pyFormat (update_rounding s).rounding (vpp_from_vrms s.vrms.parse),
        dbu := pyFormat (update_rounding s).rounding (dbu_from_vrms s.vrms.parse),
        dbv := pyFormat (update_rounding s).rounding (dbv_from_vrms s.vrms.parse) } := by
  have himp' : impInvalid (update_rounding s) := by
    have h := (update_rounding_boxes s).2.2.2.2.2.2.1
    rcases himp with h0 | ⟨z, hz, hz0⟩
    · exact Or.inl (h.trans h0)
    · exact Or.inr ⟨z, h.trans hz, hz0⟩
  have hvrms : (update_rounding s).vrms = s.vrms := (update_rounding_boxes s).2.2.1
  simp only [calc_dbm]
  rw [show update_vrms (update_rounding s) none none none none (some v)
      = (update_rounding s).addErr Err.impedanceErr by
    simp only [update_vrms]
    rcases himp' with h0 | ⟨z, hz, hz0⟩
    · rw [h0]
    · simp only [hz]
      rw [if_pos hz0]]
  simp only [update_vp, update_vpp, St.addErr, hvrms]
  have h2 : (0 : ℝ) < ({ update_rounding s with
      vp := pyFormat (update_rounding s).rounding (vp_from_vrms s.vrms.parse),
      vpp := pyFormat (update_rounding s).rounding (vpp_from_vrms s.vrms.parse),
      vrms := s.vrms,
      errors := (update_rounding s).errors ++ [Err.impedanceErr] } : St).vrms.parse := hst
  rw [dbuDbvTail_pos _ h2]

/-! Error paths and frame facts. -/

theorem calc_vp_none (s : St) : calc_vp s none = (update_rounding s).addErr Err.vpErr := rfl

theorem calc_vpp_none (s : St) : calc_vpp s none = (update_rounding s).addErr Err.vppErr := rfl

theorem calc_vrms_none (s : St) : calc_vrms s none = (update_rounding s).addErr Err.vrmsErr := rfl

theorem calc_dbu_none (s : St) : calc_dbu s none = (update_rounding s).addErr Err.dbuErr := rfl

theorem calc_dbv_none (s : St) : calc_dbv s none = (update_rounding s).addErr Err.dbvErr := rfl

theorem calc_dbm_none (s : St) : calc_dbm s none = (update_rounding s).addErr Err.dbmErr := rfl

theorem calc_vp_nonpos (s : St) {v : ℝ} (hv : v ≤ 0) :
    calc_vp s (some v) = (update_rounding s).addErr Err.vpErr := by
  simp only [calc_vp, if_pos hv]

theorem calc_vpp_nonpos (s : St) {v : ℝ} (hv : v ≤ 0) :
    calc_vpp s (some v) = (update_rounding s).addErr Err.vppErr := by
  simp only [calc_vpp, if_pos hv]

theorem calc_vrms_nonpos (s : St) {v : ℝ} (hv : v ≤ 0) :
    calc_vrms s (some v) = (update_rounding s).addErr Err.vrmsErr := by
  simp only [calc_vrms, if_pos hv]

theorem boxesEq_ur_addErr (s : St) (e : Err) : boxesEq s ((update_rounding s).addErr e) := by
  obtain ⟨h1, h2, h3, h4, h5, h6, _, _⟩ := update_rounding_boxes s
  exact ⟨h1, h2, h3, h4, h5, h6⟩

theorem mem_addErr (s : St) (e : Err) : e ∈ (s.addErr e).errors := by
  simp [St.addErr]

theorem update_vp_frame (s : St) (a b : Option ℝ) :
    (update_vp s a b).vpp = s.vpp ∧ (update_vp s a b).vrms = s.vrms ∧
    (update_vp s a b).dbu = s.dbu ∧ (update_vp s a b).dbv = s.dbv ∧
    (update_vp s a b).dbm = s.dbm ∧ (update_vp s a b).impedance = s.impedance ∧
    (update_vp s a b).spin = s.spin ∧ (update_vp s a b).rounding = s.rounding ∧
    (update_vp s a b).errors = s.errors ∧ (update_vp s a b).crashed = s.crashed := by
  rcases a with _ | va <;> rcases b with _ | vb <;> simp [update_vp]

theorem update_vpp_frame (s : St) (a b : Option ℝ) :
    (update_vpp s a b).vp = s.vp ∧ (update_vpp s a b).vrms = s.vrms ∧
    (update_vpp s a b).dbu = s.dbu ∧ (update_vpp s a b).dbv = s.dbv ∧
    (update_vpp s a b).dbm = s.dbm ∧ (update_vpp s a b).impedance = s.impedance ∧
    (update_vpp s a b).spin = s.spin ∧ (update_vpp s a b).rounding = s.rounding ∧
    (update_vpp s a b).errors = s.errors ∧ (update_vpp s a b).crashed = s.crashed := by
  rcases a with _ | va <;> rcases b with _ | vb <;> simp [update_vpp]

theorem update_vrms_frame (s : St) (a b c d e : Option ℝ) :
    (update_vrms s a b c d e).vp = s.vp ∧ (update_vrms s a b c d e).vpp = s.vpp ∧
    (update_vrms s a b c d e).dbu = s.dbu ∧ (update_vrms s a b c d e).dbv = s.dbv ∧
    (update_vrms s a b c d e).dbm = s.dbm ∧
    (update_vrms s a b c d e).impedance = s.impedance ∧
    (update_vrms s a b c d e).spin = s.spin ∧
    (update_vrms s a b c d e).rounding = s.rounding ∧
    (update_vrms s a b c d e).crashed = s.crashed := by
  rcases a with _ | va <;> rcases b with _ | vb <;> rcases c with _ | vc <;>
    rcases d with _ | vd <;> rcases e with _ | ve <;>
    simp [update_vrms, St.addErr]
  all_goals rcases himp : s.impedance with _ | z <;> simp [himp, St.addErr]
  all_goals split <;> simp [St.addErr]

theorem dbTail_frame (s : St) (e : Err) :
    (dbTail s e).rounding = s.rounding ∧ (dbTail s e).impedance = s.impedance ∧
    (dbTail s e).spin = s.spin ∧ (dbTail s e).crashed = s.crashed := by
  simp only [dbTail]
  split
  · simp [St.addErr]
  · next s3 heq =>
    obtain rfl := update_dbu_eq_some heq
    split
    · simp [St.addErr]
    · next s4 heq2 =>
      obtain ⟨_, _, _, _, _, h6, h7, h8, h9⟩ := update_dbm_frame s4 s4.vrms.parse
      obtain rfl := update_dbv_eq_some heq2
      exact ⟨h8, h6, h7, h9⟩

theorem dbTailVal_frame (s : St) (w : ℝ) (e : Err) :
    (dbTailVal s w e).rounding = s.rounding ∧ (dbTailVal s w e).impedance = s.impedance ∧
    (dbTailVal s w e).spin = s.spin ∧ (dbTailVal s w e).crashed = s.crashed := by
  simp only [dbTailVal]
  split
  · simp [St.addErr]
  · next s3 heq =>
    obtain rfl := update_dbu_eq_some heq
    split
    · simp [St.addErr]
    · next s4 heq2 =>
      obtain ⟨_, _, _, _, _, h6, h7, h8, h9⟩ := update_dbm_frame s4 w
      obtain rfl := update_dbv_eq_some heq2
      exact ⟨h8, h6, h7, h9⟩

theorem dbvDbmTail_rounding (s : St) : (dbvDbmTail s).rounding = s.rounding := by
  simp only [dbvDbmTail]
  split
  · rfl
  · next s4 heq =>
    have h8 := (update_dbm_frame s4 s4.vrms.parse).2.2.2.2.2.2.2.1
    obtain rfl := update_dbv_eq_some heq
    exact h8

theorem dbuDbmTail_rounding (s : St) : (dbuDbmTail s).rounding = s.rounding := by
  simp only [dbuDbmTail]
  split
  · rfl
  · next s4 heq =>
    have h8 := (update_dbm_frame s4 s4.vrms.parse).2.2.2.2.2.2.2.1
    obtain rfl := update_dbu_eq_some heq
    exact h8

theorem dbuDbvTail_rounding (s : St) : (dbuDbvTail s).rounding = s.rounding := by
  simp only [dbuDbvTail]
  split
  · rfl
  · next s4 heq =>
    obtain rfl := update_dbu_eq_some heq
    split
    · rfl
    · next s5 heq2 =>
      obtain rfl := update_dbv_eq_some heq2
      rfl

theorem dbTail_boxes (s : St) (e : Err) :
    (dbTail s e).vp = s.vp ∧ (dbTail s e).vpp = s.vpp ∧ (dbTail s e).vrms = s.vrms := by
  simp only [dbTail]
  split
  · simp [St.addErr]
  · next s3 heq =>
    obtain rfl := update_dbu_eq_some heq
    split
    · simp [St.addErr]
    · next s4 heq2 =>
      obtain ⟨h1, h2, h3, _, _, _, _, _, _⟩ := update_dbm_frame s4 s4.vrms.parse
      obtain rfl := update_dbv_eq_some heq2
      exact ⟨h1, h2, h3⟩

theorem dbvDbmTail_vrms (s : St) : (dbvDbmTail s).vrms = s.vrms := by
  simp only [dbvDbmTail]
  split
  · rfl
  · next s4 heq =>
    have h3 := (update_dbm_frame s4 s4.vrms.parse).2.2.1
    obtain rfl := update_dbv_eq_some heq
    exact h3

theorem dbuDbmTail_vrms (s : St) : (dbuDbmTail s).vrms = s.vrms := by
  simp only [dbuDbmTail]
  split
  · rfl
  · next s4 heq =>
    have h3 := (update_dbm_frame s4 s4.vrms.parse).2.2.1
    obtain rfl := update_dbu_eq_some heq
    exact h3

theorem dbuDbvTail_vrms (s : St) : (dbuDbvTail s).vrms = s.vrms := by
  simp only [dbuDbvTail]
  split
  · rfl
  · next s4 heq =>
    obtain rfl := update_dbu_eq_some heq
    split
    · rfl
    · next s5 heq2 =>
      obtain rfl := update_dbv_eq_some heq2
      rfl

theorem update_dbm_errors_mono (s : St) (v : ℝ) {e : Err} (h : e ∈ s.errors) :
    e ∈ (update_dbm s v).errors := by
  rcases himp : s.impedance with _ | z
  · simp [update_dbm, himp, St.addErr, h]
  · simp only [update_dbm, himp]
    split
    · simp [St.addErr, h]
    · split
      · simp [St.addErr, h]
      · simpa using h

theorem dbTail_errors_mono (s : St) (e : Err) {x : Err} (h : x ∈ s.errors) :
    x ∈ (dbTail s e).errors := by
  simp only [dbTail]
  split
  · simp only [St.addErr, List.mem_append]
    exact Or.inl h
  · next s3 heq =>
    obtain rfl := update_dbu_eq_some heq
    split
    · simp only [St.addErr, List.mem_append]
      exact Or.inl h
    · next s4 heq2 =>
      obtain rfl := update_dbv_eq_some heq2
      exact update_dbm_errors_mono _ _ h

theorem dbvDbmTail_errors_mono (s : St) {x : Err} (h : x ∈ s.errors) :
    x ∈ (dbvDbmTail s).errors := by
  simp only [dbvDbmTail]
  split
  · exact h
  · next s4 heq =>
    obtain rfl := update_dbv_eq_some heq
    exact update_dbm_errors_mono _ _ h

theorem dbuDbmTail_errors_mono (s : St) {x : Err} (h : x ∈ s.errors) :
    x ∈ (dbuDbmTail s).errors := by
  simp only [dbuDbmTail]
  split
  · exact h
  · next s4 heq =>
    obtain rfl := update_dbu_eq_some heq
    exact update_dbm_errors_mono _ _ h

theorem dbuDbvTail_errors_mono (s : St) {x : Err} (h : x ∈ s.errors) :
    x ∈ (dbuDbvTail s).errors := by
  simp only [dbuDbvTail]
  split
  · exact h
  · next s4 heq =>
    obtain rfl := update_dbu_eq_some heq
    split
    · exact h
    · next s5 heq2 =>
      obtain rfl := update_dbv_eq_some heq2
      exact h

theorem calc_vp_rounding (s : St) (i : Option ℝ) :
    (calc_vp s i).rounding = (update_rounding s).rounding := by
  rcases i with _ | v
  · rfl
  · by_cases hv : v ≤ 0
    · rw [calc_vp_nonpos s hv]; rfl
    · simp only [calc_vp, if_neg hv]
      rw [(dbTail_frame _ _).1, (update_vrms_frame _ _ _ _ _ _).2.2.2.2.2.2.2.1,
        (update_vpp_frame _ _ _).2.2.2.2.2.2.2.1]

theorem calc_vpp_rounding (s : St) (i : Option ℝ) :
    (calc_vpp s i).rounding = (update_rounding s).rounding := by
  rcases i with _ | v
  · rfl
  · by_cases hv : v ≤ 0
    · rw [calc_vpp_nonpos s hv]; rfl
    · simp only [calc_vpp, if_neg hv]
      rw [(dbTail_frame _ _).1, (update_vrms_frame _ _ _ _ _ _).2.2.2.2.2.2.2.1,
        (update_vp_frame _ _ _).2.2.2.2.2.2.2.1]

theorem calc_vrms_rounding (s : St) (i : Option ℝ) :
    (calc_vrms s i).rounding = (update_rounding s).rounding := by
  rcases i with _ | v
  · rfl
  · by_cases hv : v ≤ 0
    · rw [calc_vrms_nonpos s hv]; rfl
    · simp only [calc_vrms, if_neg hv]
      rw [(dbTailVal_frame _ _ _).1, (update_vpp_frame _ _ _).2.2.2.2.2.2.2.1,
        (update_vp_frame _ _ _).2.2.2.2.2.2.2.1]

theorem calc_dbu_rounding (s : St) (i : Option ℝ) :
    (calc_dbu s i).rounding = (update_rounding s).rounding := by
  rcases i with _ | v
  · rfl
  · simp only [calc_dbu]
    rw [dbvDbmTail_rounding, (update_vpp_frame _ _ _).2.2.2.2.2.2.2.1,
      (update_vp_frame _ _ _).2.2.2.2.2.2.2.1,
      (update_vrms_frame _ _ _ _ _ _).2.2.2.2.2.2.2.1]

theorem calc_dbv_rounding (s : St) (i : Option ℝ) :
    (calc_dbv s i).rounding = (update_rounding s).rounding := by
  rcases i with _ | v
  · rfl
  · simp only [calc_dbv]
    rw [dbuDbmTail_rounding, (update_vpp_frame _ _ _).2.2.2.2.2.2.2.1,
      (update_vp_frame _ _ _).2.2.2.2.2.2.2.1,
      (update_vrms_frame _ _ _ _ _ _).2.2.2.2.2.2.2.1]

theorem calc_dbm_rounding (s : St) (i : Option ℝ) :
    (calc_dbm s i).rounding = (update_rounding s).rounding := by
  rcases i with _ | v
  · rfl
  · simp only [calc_dbm]
    rw [dbuDbvTail_rounding, (update_vpp_frame _ _ _).2.2.2.2.2.2.2.1,
      (update_vp_frame _ _ _).2.2.2.2.2.2.2.1,
      (update_vrms_frame _ _ _ _ _ _).2.2.2.2.2.2.2.1]

theorem update_rounding_ok {s : St} (h : RoundingOK s) : RoundingOK (update_rounding s) := by
  rcases hsp : s.spin with _ | k
  · simpa [update_rounding, hsp, St.addErr, RoundingOK] using h
  · simp only [update_rounding, hsp]
    split
    · simpa [St.addErr, RoundingOK] using h
    · next hk =>
      constructor
      · show 1 ≤ Int.toNat k
        omega
      · show Int.toNat k ≤ 10
        omega

/-! Helpers for the concrete scenario states. -/

theorem update_dbm_pos {s : St} {z : ℝ} (himp : s.impedance = some z) (hz : 0 < z)
    {v : ℝ} (hv : 0 < v) :
    update_dbm s v = { s with dbm := pyFormat s.rounding (dbm_from_vrms v z) } := by
  have h1 : ¬ (z ≤ 0) := not_le.mpr hz
  have h2 : ¬ (v ^ 2 / (0.001 * z) ≤ 0) := by
    push_neg
    exact div_pos (pow_pos hv 2) (by nlinarith)
  simp only [update_dbm, himp, if_neg h1, if_neg h2]

theorem ur_s600 : update_rounding s600 = s600 := by
  rw [update_rounding_valid (show s600.spin = some 4 from rfl) (by norm_num) (by norm_num)]
  rfl

theorem ur_sBadImp : update_rounding sBadImp = sBadImp := by
  rw [update_rounding_valid (show sBadImp.spin = some 4 from rfl) (by norm_num) (by norm_num)]
  rfl

theorem sBadSpin_invalid : spinInvalid sBadSpin :=
  Or.inr ⟨0, rfl, Or.inl (by norm_num)⟩

theorem sBadImp_invalid : impInvalid sBadImp := Or.inl rfl

theorem sBadImp_vrms_parse : sBadImp.vrms.parse = 1 := by
  show Rendered.parse (Rendered.whole 1) = 1
  simp [Rendered.parse]

theorem rvrms600 : rvrms s600 1 = (7071 : ℝ) / 10 ^ (4 : ℕ) := by
  rw [rvrms, ur_s600, show s600.rounding = 4 from rfl, vrms1_format]
  simp [Rendered.parse]

theorem calcVrms600 :
    calc_vrms s600 (some 1) =
      { s600 with
        vp := Rendered.fixed 14142 4, vpp := Rendered.fixed 28284 4,
        dbu := Rendered.fixed 22185 4, dbv := Rendered.whole 0,
        dbm := Rendered.fixed 22185 4 } := by
  rw [calc_vrms_eval s600 1 one_pos, ur_s600]
  rw [update_dbm_pos (show ({ s600 with
        vp := pyFormat s600.rounding (vp_from_vrms 1),
        vpp := pyFormat s600.rounding (vpp_from_vrms 1),
        dbu := pyFormat s600.rounding (dbu_from_vrms 1),
        dbv := pyFormat s600.rounding (dbv_from_vrms 1) } : St).impedance = some 600 from rfl)
      (by norm_num) one_pos]
  rw [show s600.rounding = 4 from rfl, vp1_format, vpp1_format, dbu1_format, dbv1_format,
    dbm1_format]
  rfl

/-! Claim theorems. -/

/-- Claim C4: each implemented conversion equals the spec reference formula
exactly, as functions over the reals - `Vrms` from dBu/dBV/dBm (the latter for
impedance `Z > 0`) and dBu/dBV/dBm from `Vrms > 0` (dBm also needing `Z > 0`). -/
theorem C4_theorem :
    (∀ x : ℝ, vrms_from_dbu x = Vrms_from_dBu_spec x) ∧
    (∀ x : ℝ, vrms_from_dbv x = Vrms_from_dBV_spec x) ∧
    (∀ z x : ℝ, 0 < z → vrms_from_dbm z x = Vrms_from_dBm_spec z x) ∧
    (∀ v : ℝ, 0 < v → dbu_from_vrms v = dBu_from_Vrms_spec v) ∧
    (∀ v : ℝ, 0 < v → dbv_from_vrms v = dBV_from_Vrms_spec v) ∧
    (∀ v z : ℝ, 0 < v → 0 < z → dbm_from_vrms v z = dBm_from_Vrms_spec v z) := by
  refine ⟨fun x => rfl, fun x => rfl, fun z x _ => ?_, fun v _ => rfl, fun v _ => rfl,
    fun v z _ _ => rfl⟩
  rw [vrms_from_dbm, Vrms_from_dBm_spec, mul_assoc]

/-- Claim C4 witness: the conversions agree at the concrete inputs
`Z = 600`, `dBm = 0`, `Vrms = 1`. -/
theorem C4_witness :
    (0 : ℝ) < 600 ∧ (0 : ℝ) < 1 ∧
    vrms_from_dbm 600 0 = Vrms_from_dBm_spec 600 0 ∧
    dbm_from_vrms 1 600 = dBm_from_Vrms_spec 1 600 :=
  ⟨by norm_num, by norm_num, C4_theorem.2.2.1 600 0 (by norm_num),
    C4_theorem.2.2.2.2.2 1 600 (by norm_num) (by norm_num)⟩

/-- Claim C5 counterexample: `float('nan')` parses, the guard `entry_val <= 0.0`
is false for NaN, so the V-p request is accepted although NaN is not a finite
number greater than 0 - refuting "NaN and infinity all fail". -/
theorem C5_counterexample :
    ¬ calc_vp_rejects (some FloatV.nan) ∧ ¬ FloatV.isFinitePos FloatV.nan := by
  constructor <;> simp [calc_vp_rejects, FloatV.le0, FloatV.isFinitePos]

/-- Claim C5 (amended): a Vp/Vpp/Vrms request is rejected iff the text is
unparseable or the parsed value compares `<= 0.0` under IEEE semantics - so 0,
negative finite values and `-inf` fail, while NaN and `+inf` are (incorrectly)
accepted; dBu and dBV requests are rejected only for unparseable text, with no
magnitude restriction (dBu = -1000000 succeeds). -/
theorem C5_theorem :
    (∀ i : Option FloatV, calc_vp_rejects i ↔
      (i = none ∨ i = some FloatV.ninf ∨ ∃ x, i = some (FloatV.fin x) ∧ x ≤ 0)) ∧
    (∀ i : Option FloatV, calc_vpp_rejects i ↔
      (i = none ∨ i = some FloatV.ninf ∨ ∃ x, i = some (FloatV.fin x) ∧ x ≤ 0)) ∧
    (∀ i : Option FloatV, calc_vrms_rejects i ↔
      (i = none ∨ i = some FloatV.ninf ∨ ∃ x, i = some (FloatV.fin x) ∧ x ≤ 0)) ∧
    (∀ i : Option FloatV, calc_dbu_rejects i ↔ i = none) ∧
    (∀ i : Option FloatV, calc_dbv_rejects i ↔ i = none) ∧
    ¬ calc_dbu_rejects (some (FloatV.fin (-1000000))) := by
  refine ⟨?_, ?_, ?_, ?_, ?_, ?_⟩
  · intro i
    rcases i with _ | v
    · simp [calc_vp_rejects]
    · rcases v with x | _ | _ | _ <;> simp [calc_vp_rejects, FloatV.le0]
  · intro i
    rcases i with _ | v
    · simp [calc_vpp_rejects]
    · rcases v with x | _ | _ | _ <;> simp [calc_vpp_rejects, FloatV.le0]
  · intro i
    rcases i with _ | v
    · simp [calc_vrms_rejects]
    · rcases v with x | _ | _ | _ <;> simp [calc_vrms_rejects, FloatV.le0]
  · intro i
    rcases i with _ | v <;> simp [calc_dbu_rejects]
  · intro i
    rcases i with _ | v <;> simp [calc_dbv_rejects]
  · simp [calc_dbu_rejects]

/-- Claim C7: every output of every conversion goes through the one formatting
rule - a mathematically whole raw value renders as `whole n` (no fractional
part), any other value renders as fixed-point with exactly `rounding` digits;
the two renderings are distinct (dBV of 1 gives `whole 0`, never the fixed
rendering `0.0000`), and every write site uses this rule on its raw formula. -/
theorem C7_theorem :
    (∀ (r : ℕ) (x : ℝ) (n : ℤ), x = n → pyFormat r x = Rendered.whole n) ∧
    (∀ (r : ℕ) (x : ℝ), ¬ IsWholeR x →
      pyFormat r x = Rendered.fixed (round (x * 10 ^ r)) r) ∧
    (∀ (r : ℕ) (n m : ℤ), Rendered.whole n ≠ Rendered.fixed m r) ∧
    (∀ (s : St) (v : ℝ), (update_vp s (some v) none).vp = pyFormat s.rounding (vp_from_vpp v)) ∧
    (∀ (s : St) (v : ℝ), (update_vp s none (some v)).vp = pyFormat s.rounding (vp_from_vrms v)) ∧
    (∀ (s : St) (v : ℝ), (update_vpp s (some v) none).vpp = pyFormat s.rounding (vpp_from_vp v)) ∧
    (∀ (s : St) (v : ℝ), (update_vpp s none (some v)).vpp = pyFormat s.rounding (vpp_from_vrms v)) ∧
    (∀ (s : St) (v : ℝ), (update_vrms s (some v) none none none none).vrms =
      pyFormat s.rounding (vrms_from_vp v)) ∧
    (∀ (s : St) (v : ℝ), 0 < v →
      ((update_dbu s v).getD s).dbu = pyFormat s.rounding (dbu_from_vrms v)) ∧
    (∀ (s : St) (v : ℝ), 0 < v →
      ((update_dbv s v).getD s).dbv = pyFormat s.rounding (dbv_from_vrms v)) ∧
    (∀ (s : St) (v z : ℝ), s.impedance = some z → 0 < z → 0 < v →
      (update_dbm s v).dbm = pyFormat s.rounding (dbm_from_vrms v z)) ∧
    (∀ s : St, ((update_dbv s 1).getD s).dbv = Rendered.whole 0) := by
  refine ⟨fun r x n hx => pyFormat_whole r n hx,
    fun r x hx => by rw [pyFormat, if_neg hx],
    fun r n m => by simp,
    fun s v => rfl, fun s v => rfl, fun s v => rfl, fun s v => rfl, fun s v => rfl,
    ?_, ?_, ?_, ?_⟩
  · intro s v hv
    rw [update_dbu_pos hv]
    rfl
  · intro s v hv
    rw [update_dbv_pos hv]
    rfl
  · intro s v z himp hz hv
    rw [update_dbm_pos himp hz hv]
  · intro s
    rw [update_dbv_pos one_pos]
    show pyFormat s.rounding (dbv_from_vrms 1) = Rendered.whole 0
    exact dbv1_format s.rounding

/-- Claim C7 witness: at `s600` with `Vrms = 1` the dBu box gets the formatted
raw formula value, the dBV box renders as the whole number `0`, and the dBm box
gets the formatted dBm formula at impedance 600. -/
theorem C7_witness :
    (0 : ℝ) < 1 ∧ s600.impedance = some 600 ∧
    ((update_dbu s600 1).getD s600).dbu = pyFormat s600.rounding (dbu_from_vrms 1) ∧
    ((update_dbv s600 1).getD s600).dbv = Rendered.whole 0 ∧
    (update_dbm s600 1).dbm = pyFormat s600.rounding (dbm_from_vrms 1 600) :=
  ⟨by norm_num, rfl, C7_theorem.2.2.2.2.2.2.2.2.1 s600 1 (by norm_num),
    C7_theorem.2.2.2.2.2.2.2.2.2.2.2 s600,
    C7_theorem.2.2.2.2.2.2.2.2.2.2.1 s600 1 600 rfl (by norm_num) (by norm_num)⟩

/-- Claim C8: the implemented dBm-from-Vrms formula is strictly decreasing in
the impedance for fixed `Vrms > 0` and strictly increasing in `Vrms` for fixed
impedance `Z > 0`. -/
theorem C8_theorem :
    (∀ v z1 z2 : ℝ, 0 < v → 0 < z1 → z1 < z2 →
      dbm_from_vrms v z2 < dbm_from_vrms v z1) ∧
    (∀ z v1 v2 : ℝ, 0 < z → 0 < v1 → v1 < v2 →
      dbm_from_vrms v1 z < dbm_from_vrms v2 z) := by
  constructor
  · intro v z1 z2 hv hz1 hz
    rw [dbm_from_vrms, dbm_from_vrms]
    have h1 : (0 : ℝ) < 0.001 * z1 := by nlinarith
    have h2 : (0 : ℝ) < 0.001 * z2 := by nlinarith
    have harg : v ^ 2 / (0.001 * z2) < v ^ 2 / (0.001 * z1) :=
      div_lt_div_of_pos_left (pow_pos hv 2) h1 (by nlinarith)
    have hlog := Real.logb_lt_logb (b := 10) (by norm_num)
      (div_pos (pow_pos hv 2) h2) harg
    linarith
  · intro z v1 v2 hz hv1 hv
    rw [dbm_from_vrms, dbm_from_vrms]
    have h1 : (0 : ℝ) < 0.001 * z := by nlinarith
    have harg : v1 ^ 2 / (0.001 * z) < v2 ^ 2 / (0.001 * z) := by
      apply div_lt_div_of_pos_right ?_ h1
      exact pow_lt_pow_left₀ hv hv1.le (by norm_num)
    have hlog := Real.logb_lt_logb (b := 10) (by norm_num)
      (div_pos (pow_pos hv1 2) h1) harg
    linarith

/-- Claim C8 witness: doubling the impedance at `Vrms = 1` strictly lowers dBm,
and doubling `Vrms` at impedance 600 strictly raises it. -/
theorem C8_witness :
    (0 : ℝ) < 1 ∧ (0 : ℝ) < 600 ∧ (600 : ℝ) < 1200 ∧
    dbm_from_vrms 1 1200 < dbm_from_vrms 1 600 ∧
    dbm_from_vrms 1 600 < dbm_from_vrms 2 600 :=
  ⟨by norm_num, by norm_num, by norm_num,
    C8_theorem.1 1 600 1200 (by norm_num) (by norm_num) (by norm_num),
    C8_theorem.2 600 1 2 (by norm_num) (by norm_num) (by norm_num)⟩

/-- Claim C9: the stored rounding precision starts at 4 and stays an integer in
`[1, 10]` across every conversion request, whatever the spinbox holds. -/
theorem C9_theorem :
    initRounding = 4 ∧ 1 ≤ initRounding ∧ initRounding ≤ 10 ∧
    (∀ (s : St) (i : Option ℝ), RoundingOK s →
      RoundingOK (calc_vp s i) ∧ RoundingOK (calc_vpp s i) ∧
      RoundingOK (calc_vrms s i) ∧ RoundingOK (calc_dbu s i) ∧
      RoundingOK (calc_dbv s i) ∧ RoundingOK (calc_dbm s i)) := by
  refine ⟨rfl, by rw [initRounding]; norm_num, by rw [initRounding]; norm_num, ?_⟩
  intro s i h
  have h' := update_rounding_ok h
  refine ⟨?_, ?_, ?_, ?_, ?_, ?_⟩
  · exact ⟨by rw [RoundingOK, calc_vp_rounding] at *; exact h'.1,
      by rw [RoundingOK, calc_vp_rounding] at *; exact h'.2⟩
  · exact ⟨by rw [RoundingOK, calc_vpp_rounding] at *; exact h'.1,
      by rw [RoundingOK, calc_vpp_rounding] at *; exact h'.2⟩
  · exact ⟨by rw [RoundingOK, calc_vrms_rounding] at *; exact h'.1,
      by rw [RoundingOK, calc_vrms_rounding] at *; exact h'.2⟩
  · exact ⟨by rw [RoundingOK, calc_dbu_rounding] at *; exact h'.1,
      by rw [RoundingOK, calc_dbu_rounding] at *; exact h'.2⟩
  · exact ⟨by rw [RoundingOK, calc_dbv_rounding] at *; exact h'.1,
      by rw [RoundingOK, calc_dbv_rounding] at *; exact h'.2⟩
  · exact ⟨by rw [RoundingOK, calc_dbm_rounding] at *; exact h'.1,
      by rw [RoundingOK, calc_dbm_rounding] at *; exact h'.2⟩

/-- Claim C9 witness: at the concrete state `s600` (stored rounding 4) a Vrms
request keeps the stored rounding in `[1, 10]`. -/
theorem C9_witness : RoundingOK s600 ∧ RoundingOK (calc_vrms s600 (some 1)) := by
  have h : RoundingOK s600 :=
    ⟨by show (1 : ℕ) ≤ 4; norm_num, by show (4 : ℕ) ≤ 10; norm_num⟩
  exact ⟨h, (C9_theorem.2.2.2 s600 (some 1) h).2.2.1⟩

/-- Claim C10: each single-field update helper rewrites only its own box -
the whole state equals the input state with just that one field replaced
(update_dbu and update_dbv are read through their exception-aware result). -/
theorem C10_theorem (s : St) (a b : Option ℝ) (v w : ℝ) :
    (update_dbu s v).getD s = { s with dbu := ((update_dbu s v).getD s).dbu } ∧
    (update_dbv s w).getD s = { s with dbv := ((update_dbv s w).getD s).dbv } ∧
    update_vp s a b = { s with vp := (update_vp s a b).vp } ∧
    update_vpp s a b = { s with vpp := (update_vpp s a b).vpp } := by
  refine ⟨?_, ?_, ?_, ?_⟩
  · by_cases hc : v / 0.7745966692 ≤ 0
    · simp [update_dbu, hc]
    · simp [update_dbu, hc]
  · by_cases hc : w ≤ 0
    · simp [update_dbv, hc]
    · simp [update_dbv, hc]
  · rcases a with _ | va <;> rcases b with _ | vb <;> simp [update_vp]
  · rcases a with _ | va <;> rcases b with _ | vb <;> simp [update_vpp]

theorem ur_invalid_rounding {s : St} (h : spinInvalid s) :
    (update_rounding s).rounding = s.rounding := by
  rw [update_rounding_invalid h]
  rfl

/-- Claim C1 counterexample: with an unparseable impedance box, a dBm request
reports the impedance error but still rewrites the Vp box from the stale Vrms
box while leaving the Vrms box untouched - a partial update. -/
theorem C1_counterexample :
    Err.impedanceErr ∈ (calc_dbm sBadImp (some 0)).errors ∧
    (calc_dbm sBadImp (some 0)).vrms = sBadImp.vrms ∧
    (calc_dbm sBadImp (some 0)).vp ≠ sBadImp.vp := by
  have hst : (0 : ℝ) < sBadImp.vrms.parse := by rw [sBadImp_vrms_parse]; norm_num
  rw [calc_dbm_badImp sBadImp 0 sBadImp_invalid hst]
  refine ⟨?_, ?_, ?_⟩
  · show Err.impedanceErr ∈ (update_rounding sBadImp).errors ++ [Err.impedanceErr]
    simp
  · exact (update_rounding_boxes sBadImp).2.2.1
  · show pyFormat (update_rounding sBadImp).rounding (vp_from_vrms sBadImp.vrms.parse) ≠
      sBadImp.vp
    rw [ur_sBadImp, sBadImp_vrms_parse, show sBadImp.rounding = 4 from rfl, vp1_format]
    show Rendered.fixed 14142 4 ≠ Rendered.whole 3
    simp

/-- Claim C1 (amended): when the source value is unparseable, or fails the
positive-magnitude check of a Vp/Vpp/Vrms request, no output box is changed and
the error is reported; but an invalid impedance during a dBm request leaves the
Vrms and dBm boxes stale while still recomputing Vp (and the others) from the
stale Vrms box, so that failure is only partially contained. -/
theorem C1_theorem :
    (∀ s : St, boxesEq s (calc_vp s none) ∧ Err.vpErr ∈ (calc_vp s none).errors) ∧
    (∀ (s : St) (v : ℝ), v ≤ 0 →
      boxesEq s (calc_vp s (some v)) ∧ Err.vpErr ∈ (calc_vp s (some v)).errors) ∧
    (∀ s : St, boxesEq s (calc_vpp s none) ∧ Err.vppErr ∈ (calc_vpp s none).errors) ∧
    (∀ (s : St) (v : ℝ), v ≤ 0 →
      boxesEq s (calc_vpp s (some v)) ∧ Err.vppErr ∈ (calc_vpp s (some v)).errors) ∧
    (∀ s : St, boxesEq s (calc_vrms s none) ∧ Err.vrmsErr ∈ (calc_vrms s none).errors) ∧
    (∀ (s : St) (v : ℝ), v ≤ 0 →
      boxesEq s (calc_vrms s (some v)) ∧ Err.vrmsErr ∈ (calc_vrms s (some v)).errors) ∧
    (∀ s : St, boxesEq s (calc_dbu s none) ∧ Err.dbuErr ∈ (calc_dbu s none).errors) ∧
    (∀ s : St, boxesEq s (calc_dbv s none) ∧ Err.dbvErr ∈ (calc_dbv s none).errors) ∧
    (∀ s : St, boxesEq s (calc_dbm s none) ∧ Err.dbmErr ∈ (calc_dbm s none).errors) ∧
    (∀ (s : St) (v : ℝ), impInvalid s → 0 < s.vrms.parse →
      (calc_dbm s (some v)).vrms = s.vrms ∧ (calc_dbm s (some v)).dbm = s.dbm ∧
      Err.impedanceErr ∈ (calc_dbm s (some v)).errors ∧
      (calc_dbm s (some v)).vp =
        pyFormat (update_rounding s).rounding (vp_from_vrms s.vrms.parse)) := by
  refine ⟨fun s => ?_, fun s v hv => ?_, fun s => ?_, fun s v hv => ?_, fun s => ?_,
    fun s v hv => ?_, fun s => ?_, fun s => ?_, fun s => ?_, fun s v himp hst => ?_⟩
  · rw [calc_vp_none]; exact ⟨boxesEq_ur_addErr s _, mem_addErr _ _⟩
  · rw [calc_vp_nonpos s hv]; exact ⟨boxesEq_ur_addErr s _, mem_addErr _ _⟩
  · rw [calc_vpp_none]; exact ⟨boxesEq_ur_addErr s _, mem_addErr _ _⟩
  · rw [calc_vpp_nonpos s hv]; exact ⟨boxesEq_ur_addErr s _, mem_addErr _ _⟩
  · rw [calc_vrms_none]; exact ⟨boxesEq_ur_addErr s _, mem_addErr _ _⟩
  · rw [calc_vrms_nonpos s hv]; exact ⟨boxesEq_ur_addErr s _, mem_addErr _ _⟩
  · rw [calc_dbu_none]; exact ⟨boxesEq_ur_addErr s _, mem_addErr _ _⟩
  · rw [calc_dbv_none]; exact ⟨boxesEq_ur_addErr s _, mem_addErr _ _⟩
  · rw [calc_dbm_none]; exact ⟨boxesEq_ur_addErr s _, mem_addErr _ _⟩
  · rw [calc_dbm_badImp s v himp hst]
    refine ⟨?_, ?_, ?_, rfl⟩
    · exact (update_rounding_boxes s).2.2.1
    · exact (update_rounding_boxes s).2.2.2.2.2.1
    · show Err.impedanceErr ∈ (update_rounding s).errors ++ [Err.impedanceErr]
      simp

/-- Claim C1 witness: a Vrms request with value 0 really is rejected with no
box changed, and the dBm request at `sBadImp` (impedance box unparseable,
stale Vrms box holding 1) hits the partial-update case. -/
theorem C1_witness :
    ((0 : ℝ) ≤ 0 ∧ boxesEq s600 (calc_vrms s600 (some 0)) ∧
      Err.vrmsErr ∈ (calc_vrms s600 (some 0)).errors) ∧
    (impInvalid sBadImp ∧ 0 < sBadImp.vrms.parse ∧
      (calc_dbm sBadImp (some 0)).vrms = sBadImp.vrms ∧
      (calc_dbm sBadImp (some 0)).dbm = sBadImp.dbm ∧
      Err.impedanceErr ∈ (calc_dbm sBadImp (some 0)).errors) := by
  have hst : (0 : ℝ) < sBadImp.vrms.parse := by rw [sBadImp_vrms_parse]; norm_num
  have h1 := C1_theorem.2.2.2.2.2.1 s600 0 le_rfl
  have h2 := C1_theorem.2.2.2.2.2.2.2.2.2 sBadImp 0 sBadImp_invalid hst
  exact ⟨⟨le_rfl, h1.1, h1.2⟩, sBadImp_invalid, hst, h2.1, h2.2.1, h2.2.2.1⟩

/-- Claim C2 counterexample: with the spinbox reading 0, the Vrms request shows
the rounding error dialog yet still performs the conversion - the Vp box is
rewritten - contradicting "no computation performed". -/
theorem C2_counterexample :
    Err.roundingErr ∈ (calc_vrms sBadSpin (some 1)).errors ∧
    (calc_vrms sBadSpin (some 1)).vp ≠ sBadSpin.vp := by
  rw [calc_vrms_eval sBadSpin 1 one_pos]
  constructor
  · apply update_dbm_errors_mono
    show Err.roundingErr ∈ (update_rounding sBadSpin).errors
    rw [update_rounding_invalid sBadSpin_invalid]
    simp [St.addErr]
  · rw [(update_dbm_frame _ _).1]
    show pyFormat (update_rounding sBadSpin).rounding (vp_from_vrms 1) ≠ sBadSpin.vp
    rw [ur_invalid_rounding sBadSpin_invalid, show sBadSpin.rounding = 4 from rfl, vp1_format]
    show Rendered.fixed 14142 4 ≠ Rendered.whole 3
    simp

/-- Claim C2 (amended): for every conversion request - Vp, Vpp, Vrms, dBu, dBV
and dBm source alike - a spinbox value that is not an integer in `[1, 10]`
makes the handler report `InvalidRounding` and leaves the stored precision
unchanged, but the request is not rejected: the conversion proceeds, formatting
its outputs with the previously stored precision (witnessed here on the first
box each handler writes; the dBm case additionally needs a valid impedance to
reach its Vrms write). -/
theorem C2_theorem (s : St) (v : ℝ) (hs : spinInvalid s) (hv : 0 < v) :
    (update_rounding s).rounding = s.rounding ∧
    (Err.roundingErr ∈ (calc_vp s (some v)).errors ∧
      (calc_vp s (some v)).vpp = pyFormat s.rounding (vpp_from_vp v)) ∧
    (Err.roundingErr ∈ (calc_vpp s (some v)).errors ∧
      (calc_vpp s (some v)).vp = pyFormat s.rounding (vp_from_vpp v)) ∧
    (Err.roundingErr ∈ (calc_vrms s (some v)).errors ∧
      (calc_vrms s (some v)).vp = pyFormat s.rounding (vp_from_vrms v)) ∧
    (Err.roundingErr ∈ (calc_dbu s (some v)).errors ∧
      (calc_dbu s (some v)).vrms = pyFormat s.rounding (vrms_from_dbu v)) ∧
    (Err.roundingErr ∈ (calc_dbv s (some v)).errors ∧
      (calc_dbv s (some v)).vrms = pyFormat s.rounding (vrms_from_dbv v)) ∧
    (∀ z : ℝ, s.impedance = some z → 0 < z →
      Err.roundingErr ∈ (calc_dbm s (some v)).errors ∧
      (calc_dbm s (some v)).vrms = pyFormat s.rounding (vrms_from_dbm z v)) := by
  have hr := ur_invalid_rounding hs
  have hmem : Err.roundingErr ∈ (update_rounding s).errors := by
    rw [update_rounding_invalid hs]
    simp [St.addErr]
  refine ⟨hr, ⟨?_, ?_⟩, ⟨?_, ?_⟩, ⟨?_, ?_⟩, ⟨?_, ?_⟩, ⟨?_, ?_⟩, ?_⟩
  · simp only [calc_vp, if_neg (not_le.mpr hv)]
    exact dbTail_errors_mono _ _ hmem
  · simp only [calc_vp, if_neg (not_le.mpr hv)]
    rw [(dbTail_boxes _ _).2.1]
    show pyFormat (update_rounding s).rounding (vpp_from_vp v) =
      pyFormat s.rounding (vpp_from_vp v)
    rw [hr]
  · simp only [calc_vpp, if_neg (not_le.mpr hv)]
    exact dbTail_errors_mono _ _ hmem
  · simp only [calc_vpp, if_neg (not_le.mpr hv)]
    rw [(dbTail_boxes _ _).1]
    show pyFormat (update_rounding s).rounding (vp_from_vpp v) =
      pyFormat s.rounding (vp_from_vpp v)
    rw [hr]
  · rw [calc_vrms_eval s v hv]
    exact update_dbm_errors_mono _ _ hmem
  · rw [calc_vrms_eval s v hv, (update_dbm_frame _ _).1]
    show pyFormat (update_rounding s).rounding (vp_from_vrms v) =
      pyFormat s.rounding (vp_from_vrms v)
    rw [hr]
  · simp only [calc_dbu]
    exact dbvDbmTail_errors_mono _ hmem
  · simp only [calc_dbu]
    rw [dbvDbmTail_vrms, (update_vpp_frame _ _ _).2.1, (update_vp_frame _ _ _).2.1]
    show pyFormat (update_rounding s).rounding (vrms_from_dbu v) =
      pyFormat s.rounding (vrms_from_dbu v)
    rw [hr]
  · simp only [calc_dbv]
    exact dbuDbmTail_errors_mono _ hmem
  · simp only [calc_dbv]
    rw [dbuDbmTail_vrms, (update_vpp_frame _ _ _).2.1, (update_vp_frame _ _ _).2.1]
    show pyFormat (update_rounding s).rounding (vrms_from_dbv v) =
      pyFormat s.rounding (vrms_from_dbv v)
    rw [hr]
  · intro z himp hz
    have himp' : (update_rounding s).impedance = some z := by
      rw [(update_rounding_boxes s).2.2.2.2.2.2.1, himp]
    have h1 : update_vrms (update_rounding s) none none none none (some v) =
        { update_rounding s with
          vrms := pyFormat (update_rounding s).rounding (vrms_from_dbm z v) } := by
      simp only [update_vrms, himp']
      rw [if_neg (not_le.mpr hz)]
    constructor
    · simp only [calc_dbm]
      rw [h1]
      exact dbuDbvTail_errors_mono _ hmem
    · simp only [calc_dbm]
      rw [h1, dbuDbvTail_vrms, (update_vpp_frame _ _ _).2.1, (update_vp_frame _ _ _).2.1]
      show pyFormat (update_rounding s).rounding (vrms_from_dbm z v) =
        pyFormat s.rounding (vrms_from_dbm z v)
      rw [hr]

/-- Claim C2 witness: the amended behaviour at the concrete state `sBadSpin`
(spinbox 0, stored rounding 4, impedance 600) with input 1, for all six
handlers. -/
theorem C2_witness :
    spinInvalid sBadSpin ∧ (0 : ℝ) < 1 ∧ sBadSpin.impedance = some 600 ∧ (0 : ℝ) < 600 ∧
    ((update_rounding sBadSpin).rounding = sBadSpin.rounding ∧
      Err.roundingErr ∈ (calc_vp sBadSpin (some 1)).errors ∧
      Err.roundingErr ∈ (calc_vpp sBadSpin (some 1)).errors ∧
      Err.roundingErr ∈ (calc_vrms sBadSpin (some 1)).errors ∧
      Err.roundingErr ∈ (calc_dbu sBadSpin (some 1)).errors ∧
      Err.roundingErr ∈ (calc_dbv sBadSpin (some 1)).errors ∧
      Err.roundingErr ∈ (calc_dbm sBadSpin (some 1)).errors ∧
      (calc_vrms sBadSpin (some 1)).vp = pyFormat sBadSpin.rounding (vp_from_vrms 1) ∧
      (calc_dbm sBadSpin (some 1)).vrms =
        pyFormat sBadSpin.rounding (vrms_from_dbm 600 1)) := by
  have h := C2_theorem sBadSpin 1 sBadSpin_invalid (by norm_num)
  have hz := h.2.2.2.2.2.2 600 rfl (by norm_num)
  exact ⟨sBadSpin_invalid, by norm_num, rfl, by norm_num,
    h.1, h.2.1.1, h.2.2.1.1, h.2.2.2.1.1, h.2.2.2.2.1.1, h.2.2.2.2.2.1.1, hz.1,
    h.2.2.2.1.2, hz.2⟩

/-- Claim C3 counterexample: from Vp = 1 with rounding 4, the dBV box the code
produces (from the re-parsed rounded Vrms rendering 0.7071) is `-3.0104`,
while the Vrms-source operation at the exact Vrms `1/sqrt 2` renders
`-3.0103` - the derived dB output does not equal the exact-Vrms value. -/
theorem C3_counterexample :
    (calc_vp s600 (some 1)).dbv ≠ (calc_vrms s600 (some (vrms_from_vp 1))).dbv := by
  have hq : (0 : ℝ) < rvrms s600 1 := by rw [rvrms600]; norm_num
  have hv : (0 : ℝ) < vrms_from_vp 1 := by
    rw [vrms_from_vp]
    have := sqrt2_bounds.1
    rw [one_mul]
    positivity
  rw [calc_vp_eval s600 1 one_pos hq, calc_vrms_eval s600 _ hv]
  rw [(update_dbm_frame _ _).2.2.2.2.1, (update_dbm_frame _ _).2.2.2.2.1]
  show pyFormat (update_rounding s600).rounding (dbv_from_vrms (rvrms s600 1)) ≠
    pyFormat (update_rounding s600).rounding (dbv_from_vrms (vrms_from_vp 1))
  rw [ur_s600, show s600.rounding = 4 from rfl, rvrms600, dbvA_format, dbvB_format]
  simp

/-- Claim C3 (amended): for a Vp-source (or Vpp-source) conversion the dBu, dBV
and dBm outputs are computed from the re-parsed formatted Vrms rendering, so
they equal the outputs the Vrms-source operation would produce for that
re-parsed rounded Vrms (not for the full-precision intermediate). -/
theorem C3_theorem (s : St) (u w : ℝ) (hu : 0 < u) (hw : 0 < w) :
    (0 < rvrms s u →
      ((calc_vp s (some u)).dbu = (calc_vrms s (some (rvrms s u))).dbu ∧
       (calc_vp s (some u)).dbv = (calc_vrms s (some (rvrms s u))).dbv ∧
       (calc_vp s (some u)).dbm = (calc_vrms s (some (rvrms s u))).dbm)) ∧
    (0 < rvrmsPP s w →
      ((calc_vpp s (some w)).dbu = (calc_vrms s (some (rvrmsPP s w))).dbu ∧
       (calc_vpp s (some w)).dbv = (calc_vrms s (some (rvrmsPP s w))).dbv ∧
       (calc_vpp s (some w)).dbm = (calc_vrms s (some (rvrmsPP s w))).dbm)) := by
  constructor
  · intro hq
    rw [calc_vp_eval s u hu hq, calc_vrms_eval s (rvrms s u) hq]
    refine ⟨?_, ?_, ?_⟩
    · rw [(update_dbm_frame _ _).2.2.2.1, (update_dbm_frame _ _).2.2.2.1]
    · rw [(update_dbm_frame _ _).2.2.2.2.1, (update_dbm_frame _ _).2.2.2.2.1]
    · rw [update_dbm_dbm _ _ hq, update_dbm_dbm _ _ hq]
  · intro hq
    rw [calc_vpp_eval s w hw hq, calc_vrms_eval s (rvrmsPP s w) hq]
    refine ⟨?_, ?_, ?_⟩
    · rw [(update_dbm_frame _ _).2.2.2.1, (update_dbm_frame _ _).2.2.2.1]
    · rw [(update_dbm_frame _ _).2.2.2.2.1, (update_dbm_frame _ _).2.2.2.2.1]
    · rw [update_dbm_dbm _ _ hq, update_dbm_dbm _ _ hq]

/-- Claim C3 witness: at `s600` with Vp = 1 the re-parsed rounded Vrms is
positive and the three dB boxes agree with the Vrms-source operation run on
that re-parsed value. -/
theorem C3_witness :
    (0 : ℝ) < 1 ∧ (0 : ℝ) < rvrms s600 1 ∧
    ((calc_vp s600 (some 1)).dbu = (calc_vrms s600 (some (rvrms s600 1))).dbu ∧
     (calc_vp s600 (some 1)).dbv = (calc_vrms s600 (some (rvrms s600 1))).dbv ∧
     (calc_vp s600 (some 1)).dbm = (calc_vrms s600 (some (rvrms s600 1))).dbm) := by
  have hq : (0 : ℝ) < rvrms s600 1 := by rw [rvrms600]; norm_num
  exact ⟨one_pos, hq, (C3_theorem s600 1 1 one_pos one_pos).1 hq⟩

/-- Claim C6 counterexample: the Vrms-source conversion at value 1, rounding 4,
impedance 600 renders dBu as `2.2185`, not the claimed `2.2190`, and dBm as
`2.2185`, not the claimed `-27.7815`. -/
theorem C6_counterexample :
    (calc_vrms s600 (some 1)).dbu ≠ Rendered.fixed 22190 4 ∧
    (calc_vrms s600 (some 1)).dbm ≠ Rendered.fixed (-277815) 4 := by
  rw [calcVrms600]
  constructor <;> simp

/-- Claim C6 (amended): the Vrms-source conversion with input 1, rounding 4 and
impedance 600 produces Vp `1.4142`, Vpp `2.8284`, dBu `2.2185`, dBV `0` (whole,
no fractional part) and dBm `2.2185`. -/
theorem C6_theorem :
    (calc_vrms s600 (some 1)).vp = Rendered.fixed 14142 4 ∧
    (calc_vrms s600 (some 1)).vpp = Rendered.fixed 28284 4 ∧
    (calc_vrms s600 (some 1)).dbu = Rendered.fixed 22185 4 ∧
    (calc_vrms s600 (some 1)).dbv = Rendered.whole 0 ∧
    (calc_vrms s600 (some 1)).dbm = Rendered.fixed 22185 4 := by
  rw [calcVrms600]
  exact ⟨rfl, rfl, rfl, rfl, rfl⟩

end VoltdB
